import Mathlib

set_option maxRecDepth 8192

/-!
Shallow embedding of the playback-orchestration core of BikaMusic
(`src/main.py`), a group voice-chat music relay.

Per-group mutable state in the source is the pair of dictionaries
`mem_queue : chat_id -> [file_path, ...]` and `mem_now : chat_id -> current`.
Since every handler touches only its own chat id, we model the state of one
group (a missing key reads as the empty list / `None`).

External effects are made explicit:
  * pytgcalls calls (`change_stream`, `join_group_call`, `leave_group_call`)
    are recorded in an operation trace, with Booleans saying whether each
    underlying call succeeds;
  * `cleanup_file` (best-effort `os.remove`) is recorded in a `released` list;
  * the resolver `ytdlp_to_mp3` is modelled over an explicit environment:
    whether `subprocess.check_call` raised, and the contents of the shared
    directory `/tmp/tg_music` (file name, mtime) after the download;
  * each handler returns the final text of the reply it sent or edited.

Python string operations act on characters, so they are embedded as
operations on `String.data` (the character list); this keeps every
definition executable inside the kernel.
-/

/-- Python `str.startswith`: character-level prefix test. -/
def pyStartsWith (s p : String) : Bool := p.data.isPrefixOf s.data

/-- Python `str.endswith`: character-level suffix test. -/
def pyEndsWith (s p : String) : Bool := p.data.isSuffixOf s.data

/-- Python slicing `s[:n]`: the first `n` characters. -/
def pyTake (s : String) (n : Nat) : String := ⟨s.data.take n⟩

/-- Python slicing `s[n:]`: all but the first `n` characters. -/
def pyDrop (s : String) (n : Nat) : String := ⟨s.data.drop n⟩

/-- Python `os.path.basename`: everything after the last `/`. -/
def pyBasename (p : String) : String :=
  ⟨(p.data.reverse.takeWhile (fun c => !(c == '/'))).reverse⟩

/-- Per-group queue state: `pending` mirrors `mem_queue[chat_id]` (main.py
line 123) and `now` mirrors `mem_now[chat_id]` (line 124). -/
structure GroupState where
  pending : List String
  now : Option String
deriving DecidableEq, Repr

/-- State of a group no handler has touched: absent dictionary keys read as
`[]` / `None` via `.get(chat_id, [])` and `.get(chat_id)`. -/
def initState : GroupState := ⟨[], none⟩

/-- One pytgcalls call issued by a handler (the `calls.…` invocations in
main.py lines 220, 223, 234, 366, 391). -/
inductive CallOp where
  | change_stream (path : String)
  | join_group_call (path : String)
  | leave_group_call
deriving DecidableEq, Repr

/-- `is_url` (main.py lines 134-135). -/
def is_url (s : String) : Bool :=
  pyStartsWith s "http://" || pyStartsWith s "https://"

/-- `safe_basename` (main.py lines 138-141): `"—"` for `None` or the empty
string (Python `if not path`), else the part after the last `/` with every
`<` and `>` removed (`.replace("<", "").replace(">", "")`). -/
def safe_basename (path : Option String) : String :=
  match path with
  | none => "—"
  | some p =>
    if p = "" then "—"
    else ⟨(pyBasename p).data.filter (fun c => !(c == '<' || c == '>'))⟩

/-- Helper for `normalize_music_query`: the whitespace-separated words of a
character list, carrying the current word's characters in reverse. -/
def musicQueryWords : List Char → List Char → List String
  | [], acc => if acc.isEmpty then [] else [⟨acc.reverse⟩]
  | c :: rest, acc =>
    if c.isWhitespace then
      if acc.isEmpty then musicQueryWords rest []
      else String.mk acc.reverse :: musicQueryWords rest []
    else musicQueryWords rest (c :: acc)

/-- `normalize_music_query` (main.py lines 130-131): `re.sub` collapses every
whitespace run to a single space and `.strip()` trims the ends, which is the
same as joining the whitespace-separated words with single spaces. -/
def normalize_music_query (text : String) : String :=
  " ".intercalate (musicQueryWords text.data [])

/-- Comparator of the mtime sort of main.py line 169
(`sort(key=mtime, reverse=True)`): descending mtime, stable on ties. -/
def mtimeDesc (a b : String × Nat) : Bool := decide (b.2 ≤ a.2)

/-- `ytdlp_to_mp3` (main.py lines 144-172).  Environment: `subprocessErr` is
`some e` when `subprocess.check_call` raised (with message `e`), and
`dirFiles` lists `/tmp/tg_music` as `(file name, mtime)` pairs after the
download.  Returns the yt-dlp target built from the query (lines 152-154)
together with the result: the path of the `.mp3` file with the greatest
mtime in the directory — the descending stable sort and `files[0]` of lines
168-172 — or the raised error. -/
def ytdlp_to_mp3 (subprocessErr : Option String) (dirFiles : List (String × Nat))
    (query_or_url : String) : String × Except String String :=
  let target := if is_url query_or_url then query_or_url
                else "ytsearch1:" ++ query_or_url
  let result : Except String String :=
    match subprocessErr with
    | some e => Except.error e
    | none =>
      let files := dirFiles.filter (fun f => pyEndsWith f.1 ".mp3")
      let sorted := files.mergeSort mtimeDesc
      match sorted with
      | [] => Except.error "No mp3 produced"
      | f :: _ => Except.ok ("/tmp/tg_music/" ++ f.1)
  (target, result)

/-- `assistant_in_group` (main.py lines 196-208): `False` when `ASSISTANT_ID`
is unset (`None`, or `0` — Python `if not ASSISTANT_ID`); otherwise the
`get_chat_member` lookup (`memberLookup`) decides, with any exception caught
and turned into `False`.  (`ensure_peer` swallows its own exceptions,
main.py lines 189-193, so it cannot raise here.) -/
def assistant_in_group (assistantId : Option Int)
    (memberLookup : Except String Unit) : Bool :=
  match assistantId with
  | none => false
  | some i =>
    if i = 0 then false
    else
      match memberLookup with
      | Except.ok _ => true
      | Except.error _ => false

/-- `ensure_join_and_play` (main.py lines 211-223): try `change_stream`; on
any exception, fall back to `join_group_call`.  `changeOk` / `joinOk` say
whether each pytgcalls call succeeds; the Boolean result says whether the
coroutine returned without raising (a `join_group_call` failure propagates
to the caller). -/
def ensure_join_and_play (changeOk joinOk : Bool) (file_path : String) :
    List CallOp × Bool :=
  if changeOk then ([CallOp.change_stream file_path], true)
  else ([CallOp.change_stream file_path, CallOp.join_group_call file_path], joinOk)

/-- `play_next` (main.py lines 226-241): empty queue clears `now` and issues a
(failure-swallowed) `leave_group_call`; otherwise the head of the queue is
recorded as `now` (it is NOT removed from the queue) and streamed via
`ensure_join_and_play`.  Result: new state, ops issued, and whether the
coroutine returned without raising. -/
def play_next (changeOk joinOk : Bool) (s : GroupState) :
    GroupState × List CallOp × Bool :=
  match s.pending with
  | [] => (⟨s.pending, none⟩, [CallOp.leave_group_call], true)
  | file_path :: _ =>
    let r := ensure_join_and_play changeOk joinOk file_path
    (⟨s.pending, some file_path⟩, r.1, r.2)

/-- `ASSISTANT_USERNAME` at its default value (no env override), main.py
lines 65-68. -/
def ASSISTANT_USERNAME : String := "@BikaAssistant"

/-- `ASSISTANT_LINK` (main.py line 69). -/
def ASSISTANT_LINK : String := "https://t.me/" ++ pyDrop ASSISTANT_USERNAME 1

/-- Reply of group-only commands used outside a group (main.py line 354 etc.). -/
def groupOnlyReply : String := "ဒီ command ကို group ထဲမှာပဲ သုံးပါ"

/-- Reply of `/play` outside a group (main.py line 309). -/
def groupOnlyReplyPlay : String := "VC stream က group/supergroup ထဲမှာပဲ သုံးပါ"

/-- Usage reply of `/play` without an argument (main.py line 313). -/
def usageReply : String :=
  "အသုံးပြုပုံ: <code>/play MusicName</code> သို့ <code>/play URL</code>"

/-- Reply when the assistant is not in the group (main.py lines 317-322). -/
def notPresentReply : String :=
  "❌ Assistant account မရှိသေးပါ။\n\n➡️ Add/Invite: <a href=\"" ++ ASSISTANT_LINK
  ++ "\">" ++ ASSISTANT_USERNAME ++ "</a>\n✅ ပြီးရင် Voice Chat ဖွင့်ပြီး /play ပြန်ခေါ်ပါ"

/-- Reply when `ytdlp_to_mp3` raised `e` (main.py line 330); Python
`str(e)[:180]` is the first 180 characters. -/
def resolutionFailReply (e : String) : String :=
  "❌ မရပါ: <code>" ++ pyTake e 180 ++ "</code>"

/-- Reply when the track started playing (main.py line 337). -/
def playingReply (file_path : String) : String :=
  "▶️ Playing: <code>" ++ safe_basename (some file_path) ++ "</code>"

/-- Reply when `play_next` raised inside `/play` (main.py lines 339-346). -/
def vcJoinFailReply (e : String) : String :=
  "⚠️ VC join/play မရပါ\n• Error: <code>" ++ pyTake e 180
  ++ "</code>\n\n✅ စစ်ရန်:\n1) Voice Chat ဖွင့်ထားလား\n2) Assistant account ကို group ထဲ add ထားလား\n3) Bot/assistant ကို VC join လုပ်ခွင့်ရှိလား"

/-- Reply when the track was queued behind others (main.py line 348). -/
def queuedReply (file_path : String) : String :=
  "➕ Queued: <code>" ++ safe_basename (some file_path) ++ "</code>"

/-- Reply when `play_next` raised inside `/skip` (main.py line 375). -/
def nextPlayFailReply (e : String) : String :=
  "⚠️ Next play မရ: <code>" ++ pyTake e 180 ++ "</code>"

/-- Everything observable about one handler invocation: the group state it
leaves behind, the pytgcalls ops issued, the files passed to `cleanup_file`,
the (normalized) query the resolver was invoked with (`none` when the
resolver was never invoked), and the final text of the reply. -/
structure HandlerResult where
  state : GroupState
  ops : List CallOp
  released : List String
  resolverQuery : Option String
  reply : String
deriving DecidableEq, Repr

/-- `cmd_play` (main.py lines 306-348).  Environment: `isGroup` is
`m.chat.type in ("group", "supergroup")`; `arg` is `parts[1]` when the
command has an argument (line 311); `present` is the result of
`assistant_in_group`; `resolve` is the outcome of `ytdlp_to_mp3` run in a
thread (`ok file_path`, or `error (str e)`); `changeOk` / `joinOk` are the
pytgcalls outcomes inside `play_next`; `streamErr` is `str(e)` of the
exception when `play_next` raises. -/
def cmd_play (isGroup : Bool) (arg : Option String) (present : Bool)
    (resolve : Except String String) (changeOk joinOk : Bool) (streamErr : String)
    (s : GroupState) : HandlerResult :=
  if !isGroup then ⟨s, [], [], none, groupOnlyReplyPlay⟩
  else
    match arg with
    | none => ⟨s, [], [], none, usageReply⟩
    | some rawArg =>
      if !present then ⟨s, [], [], none, notPresentReply⟩
      else
        let query := normalize_music_query rawArg
        match resolve with
        | Except.error e => ⟨s, [], [], some query, resolutionFailReply e⟩
        | Except.ok file_path =>
          let pending' := s.pending ++ [file_path]
          if pending'.length = 1 then
            let r := play_next changeOk joinOk ⟨pending', s.now⟩
            if r.2.2 then ⟨r.1, r.2.1, [], some query, playingReply file_path⟩
            else ⟨r.1, r.2.1, [], some query, vcJoinFailReply streamErr⟩
          else ⟨⟨pending', s.now⟩, [], [], some query, queuedReply file_path⟩

/-- `cmd_skip` (main.py lines 351-375): pop the head (the playing track),
release it; if nothing is left, clear `now` and leave the call; otherwise
`play_next` promotes the new head, and a raise from it is caught and
reported. -/
def cmd_skip (isGroup : Bool) (changeOk joinOk : Bool) (streamErr : String)
    (s : GroupState) : HandlerResult :=
  if !isGroup then ⟨s, [], [], none, groupOnlyReply⟩
  else
    match s.pending with
    | [] => ⟨s, [], [], none, "Queue မရှိပါ"⟩
    | cur :: rest =>
      match rest with
      | [] => ⟨⟨[], none⟩, [CallOp.leave_group_call], [cur], none,
               "⏹ Stopped (queue empty)"⟩
      | _ :: _ =>
        let r := play_next changeOk joinOk ⟨rest, s.now⟩
        if r.2.2 then ⟨r.1, r.2.1, [cur], none, "⏭ Skipped"⟩
        else ⟨r.1, r.2.1, [cur], none, nextPlayFailReply streamErr⟩

set_option linter.unusedVariables false in
/-- `cmd_stop` (main.py lines 378-395): release every queued file, empty the
queue, clear `now`, issue one `leave_group_call` whose failure is swallowed
(`leaveOk` is deliberately unread — the `try`/`except: pass` discards it),
and reply unconditionally. -/
def cmd_stop (isGroup : Bool) (leaveOk : Bool) (s : GroupState) : HandlerResult :=
  if !isGroup then ⟨s, [], [], none, groupOnlyReply⟩
  else ⟨⟨[], none⟩, [CallOp.leave_group_call], s.pending, none,
        "⏹ Stopped & cleared queue"⟩

/-- One in-group user event together with the ambient outcomes of its
external calls. -/
inductive Ev where
  | play (arg : String) (present : Bool) (resolve : Except String String)
      (changeOk joinOk : Bool) (streamErr : String)
  | skip (changeOk joinOk : Bool) (streamErr : String)
  | stop (leaveOk : Bool)

/-- The state transition of one in-group event: the state component of the
corresponding handler. -/
def step (s : GroupState) (e : Ev) : GroupState :=
  match e with
  | Ev.play arg present resolve changeOk joinOk streamErr =>
      (cmd_play true (some arg) present resolve changeOk joinOk streamErr s).state
  | Ev.skip changeOk joinOk streamErr =>
      (cmd_skip true changeOk joinOk streamErr s).state
  | Ev.stop leaveOk => (cmd_stop true leaveOk s).state

/-- Run a sequence of events from the untouched state. -/
def run (es : List Ev) : GroupState := es.foldl step initState

/-- Predicate picking out the `change_stream` ops of a trace.  Every
`StartOrChange` attempt (one `ensure_join_and_play` call) begins with exactly
one `change_stream`, so counting them counts join/change-stream attempts. -/
def isChangeStreamOp : CallOp → Bool
  | CallOp.change_stream _ => true
  | _ => false

/-- Number of join/change-stream attempts in a trace. -/
def streamAttempts (ops : List CallOp) : Nat :=
  (ops.filter isChangeStreamOp).length

/-- The audio source an op streams, `none` for `leave_group_call`. -/
def opTarget : CallOp → Option String
  | CallOp.change_stream p => some p
  | CallOp.join_group_call p => some p
  | CallOp.leave_group_call => none

/-- Predicate picking out the `leave_group_call` ops of a trace. -/
def isLeaveOp : CallOp → Bool
  | CallOp.leave_group_call => true
  | _ => false

/-- Number of `Leave` calls in a trace. -/
def leaveCount (ops : List CallOp) : Nat :=
  (ops.filter isLeaveOp).length

/-!  Helper lemmas (shared; none of these is a claim's theorem). -/

/-- Character-level `startswith` agrees with the existence of a suffix. -/
theorem pyStartsWith_iff (s p : String) :
    pyStartsWith s p = true ↔ ∃ r : String, s = p ++ r := by
  unfold pyStartsWith
  rw [List.isPrefixOf_iff_prefix]
  constructor
  · rintro ⟨t, ht⟩
    exact ⟨⟨t⟩, String.ext (by rw [String.data_append]; exact ht.symm)⟩
  · rintro ⟨r, hr⟩
    exact ⟨r.data, by rw [hr, String.data_append]⟩

/-- The state left by an in-group `/play`, by cases on the environment. -/
theorem cmd_play_state (arg : String) (present : Bool)
    (resolve : Except String String) (changeOk joinOk : Bool) (streamErr : String)
    (s : GroupState) :
    (cmd_play true (some arg) present resolve changeOk joinOk streamErr s).state
      = match present, resolve with
        | false, _ => s
        | true, Except.error _ => s
        | true, Except.ok f =>
          if s.pending = [] then ⟨[f], some f⟩ else ⟨s.pending ++ [f], s.now⟩ := by
  cases present with
  | false => rfl
  | true =>
    cases resolve with
    | error e => rfl
    | ok f =>
      cases hs : s.pending with
      | nil =>
        simp [cmd_play, play_next, ensure_join_and_play, hs,
          apply_ite HandlerResult.state]
      | cons a t =>
        have hlen : ¬ ((a :: t) ++ [f]).length = 1 := by simp
        simp [cmd_play, hs, hlen]

/-- The state left by an in-group `/skip`, by cases on the queue. -/
theorem cmd_skip_state (changeOk joinOk : Bool) (streamErr : String)
    (s : GroupState) :
    (cmd_skip true changeOk joinOk streamErr s).state
      = match s.pending with
        | [] => s
        | _ :: [] => ⟨[], none⟩
        | _ :: b :: t => ⟨b :: t, some b⟩ := by
  cases hs : s.pending with
  | nil => simp [cmd_skip, hs]
  | cons a rest =>
    cases rest with
    | nil => simp [cmd_skip, hs]
    | cons b t =>
      simp [cmd_skip, play_next, ensure_join_and_play, hs,
        apply_ite HandlerResult.state]

/-- First character of the VC-join-failure reply. -/
theorem vcJoinFailReply_head (e : String) :
    (vcJoinFailReply e).data.head? = some '⚠' := rfl

/-- First character of the resolution-failure reply. -/
theorem resolutionFailReply_head (e : String) :
    (resolutionFailReply e).data.head? = some '❌' := rfl

/-- The join/stream-failure reply is never equal to a resolution-failure
reply: the two error kinds are surfaced distinctly to the user. -/
theorem vcJoinFailReply_ne_resolutionFailReply (x e : String) :
    vcJoinFailReply x ≠ resolutionFailReply e := by
  intro h
  have hd : (vcJoinFailReply x).data.head? = (resolutionFailReply e).data.head? := by
    rw [h]
  rw [vcJoinFailReply_head, resolutionFailReply_head] at hd
  exact absurd hd (by decide)

/-!  Claims. -/

/-- C2: For every PlayRequest in a group context, if the presence check
returns false the handler replies with the assistant-not-present outcome and
stops: the resolver is never invoked (`resolverQuery = none`), no call op is
issued, nothing is released, and the group's queue state is unchanged,
whatever the resolver would have answered. -/
theorem c2_gate_blocks_resolution (arg : String) (resolve : Except String String)
    (changeOk joinOk : Bool) (streamErr : String) (s : GroupState) :
    cmd_play true (some arg) false resolve changeOk joinOk streamErr s
      = ⟨s, [], [], none, notPresentReply⟩ := by
  rfl

/-- C8: `assistant_in_group` never propagates a membership-lookup failure: it
is a total Boolean function, and whenever the underlying `get_chat_member`
lookup fails it returns false (fails closed) rather than raising, for every
assistant id. -/
theorem c8_presence_fails_closed (assistantId : Option Int) (e : String) :
    assistant_in_group assistantId (Except.error e) = false := by
  cases assistantId with
  | none => rfl
  | some i =>
    simp only [assistant_in_group]
    split <;> rfl

/-- C9: the resolver treats its input as a direct content locator (passes it
to yt-dlp unchanged) exactly when it syntactically starts with `http://` or
`https://` (`is_url`, i.e. some such scheme prefix exists); every other
input is submitted as a best-single-result search (`ytsearch1:` prefix). -/
theorem c9_url_vs_search (subprocessErr : Option String)
    (dirFiles : List (String × Nat)) (q : String) :
    (is_url q = true
      ↔ ∃ r : String, q = "http://" ++ r ∨ q = "https://" ++ r)
    ∧ ((ytdlp_to_mp3 subprocessErr dirFiles q).1 = q ↔ is_url q = true)
    ∧ (is_url q = false →
        (ytdlp_to_mp3 subprocessErr dirFiles q).1 = "ytsearch1:" ++ q) := by
  refine ⟨?_, ⟨?_, ?_⟩, ?_⟩
  · unfold is_url
    rw [Bool.or_eq_true, pyStartsWith_iff, pyStartsWith_iff]
    constructor
    · rintro (⟨r, hr⟩ | ⟨r, hr⟩)
      · exact ⟨r, Or.inl hr⟩
      · exact ⟨r, Or.inr hr⟩
    · rintro ⟨r, hr | hr⟩
      · exact Or.inl ⟨r, hr⟩
      · exact Or.inr ⟨r, hr⟩
  · intro h
    by_contra hurl
    rw [Bool.not_eq_true] at hurl
    have ht : (ytdlp_to_mp3 subprocessErr dirFiles q).1 = "ytsearch1:" ++ q := by
      simp [ytdlp_to_mp3, hurl]
    rw [ht] at h
    have hlen := congrArg String.length h
    rw [String.length_append] at hlen
    have h10 : ("ytsearch1:" : String).length = 10 := rfl
    omega
  · intro h
    simp [ytdlp_to_mp3, h]
  · intro h
    simp [ytdlp_to_mp3, h]

/-- C9 witness: a plain-text query is sent as a single-result search, and an
https input is passed through unchanged. -/
theorem c9_witness :
    (ytdlp_to_mp3 none [] "bika song").1 = "ytsearch1:bika song"
    ∧ (ytdlp_to_mp3 none [] "https://youtu.be/x").1 = "https://youtu.be/x" := by
  refine ⟨(c9_url_vs_search none [] "bika song").2.2 (by decide), ?_⟩
  exact ((c9_url_vs_search none [] "https://youtu.be/x").2.1).2 (by decide)

/-- C5: a StopRequest in a group context, regardless of the prior queue state
(including an already-empty queue): pending is emptied, current is cleared,
every held artifact is released (all of pending; the hypothesis is the queue
shape the handlers maintain, under which the current artifact is the head of
pending and hence also released), exactly one Leave is issued, and the reply
is the stopped-and-cleared outcome — the same for every Leave outcome, so
Leave failures are not surfaced. -/
theorem c5_stop_clears_everything (leaveOk : Bool) (s : GroupState)
    (hinv : s.now = s.pending.head?) :
    (cmd_stop true leaveOk s).state = ⟨[], none⟩
    ∧ (cmd_stop true leaveOk s).released = s.pending
    ∧ (∀ a : String, s.now = some a → a ∈ (cmd_stop true leaveOk s).released)
    ∧ (cmd_stop true leaveOk s).ops = [CallOp.leave_group_call]
    ∧ (cmd_stop true leaveOk s).reply = "⏹ Stopped & cleared queue" := by
  refine ⟨rfl, rfl, ?_, rfl, rfl⟩
  intro a ha
  rw [hinv] at ha
  exact List.mem_of_mem_head? (Option.mem_def.mpr ha)

/-- C5 witness: stopping with queue ["a.mp3", "b.mp3"] (current = head) while
the Leave fails still clears everything, releases both files including the
current one, issues the one Leave, and replies stopped-and-cleared. -/
theorem c5_witness :
    (cmd_stop true false ⟨["a.mp3", "b.mp3"], some "a.mp3"⟩).state = ⟨[], none⟩
    ∧ (cmd_stop true false ⟨["a.mp3", "b.mp3"], some "a.mp3"⟩).released
        = ["a.mp3", "b.mp3"]
    ∧ "a.mp3" ∈ (cmd_stop true false ⟨["a.mp3", "b.mp3"], some "a.mp3"⟩).released
    ∧ (cmd_stop true false ⟨["a.mp3", "b.mp3"], some "a.mp3"⟩).ops
        = [CallOp.leave_group_call]
    ∧ (cmd_stop true false ⟨["a.mp3", "b.mp3"], some "a.mp3"⟩).reply
        = "⏹ Stopped & cleared queue" := by
  have h := c5_stop_clears_everything false ⟨["a.mp3", "b.mp3"], some "a.mp3"⟩ rfl
  exact ⟨h.1, h.2.1, h.2.2.1 "a.mp3" rfl, h.2.2.2.1, h.2.2.2.2⟩

/-- C4: a SkipRequest on a group whose queue holds two or more items releases
the current artifact (the head, which is what is current), promotes the
second item to current, and makes exactly one join/change-stream attempt,
every issued op targeting the promoted artifact (in particular no Leave). -/
theorem c4_skip_promotes_second (a b : String) (t : List String)
    (now : Option String) (changeOk joinOk : Bool) (streamErr : String)
    (hnow : now = some a) :
    (cmd_skip true changeOk joinOk streamErr ⟨a :: b :: t, now⟩).released = [a]
    ∧ (∀ c : String, now = some c →
        c ∈ (cmd_skip true changeOk joinOk streamErr ⟨a :: b :: t, now⟩).released)
    ∧ (cmd_skip true changeOk joinOk streamErr ⟨a :: b :: t, now⟩).state
        = ⟨b :: t, some b⟩
    ∧ streamAttempts
        (cmd_skip true changeOk joinOk streamErr ⟨a :: b :: t, now⟩).ops = 1
    ∧ ∀ op ∈ (cmd_skip true changeOk joinOk streamErr ⟨a :: b :: t, now⟩).ops,
        opTarget op = some b := by
  subst hnow
  cases changeOk <;> cases joinOk <;>
    simp [cmd_skip, play_next, ensure_join_and_play, streamAttempts,
      isChangeStreamOp, opTarget]

/-- C4 witness: skipping with ["a.mp3", "b.mp3"] queued releases a.mp3,
promotes b.mp3 to current, and makes one join/change-stream attempt. -/
theorem c4_witness :
    (cmd_skip true true true "" ⟨["a.mp3", "b.mp3"], some "a.mp3"⟩).released
        = ["a.mp3"]
    ∧ (cmd_skip true true true "" ⟨["a.mp3", "b.mp3"], some "a.mp3"⟩).state
        = ⟨["b.mp3"], some "b.mp3"⟩
    ∧ streamAttempts
        (cmd_skip true true true "" ⟨["a.mp3", "b.mp3"], some "a.mp3"⟩).ops = 1 := by
  have h := c4_skip_promotes_second "a.mp3" "b.mp3" [] (some "a.mp3") true true "" rfl
  exact ⟨h.1, h.2.2.1, h.2.2.2.1⟩

/-- C7: a PlayRequest that promoted its artifact (the queue was empty) whose
join/change-stream then fails (change and fallback join both fail) leaves
the artifact recorded as current with the queue not rolled back, makes
exactly one join/change-stream attempt (no retry), and reports the VC-join
failure — an outcome distinct from every resolution-failure outcome. -/
theorem c7_join_failure_kept_current (arg f streamErr : String) (s : GroupState)
    (hempty : s.pending = []) :
    (cmd_play true (some arg) true (Except.ok f) false false streamErr s).state
      = ⟨[f], some f⟩
    ∧ streamAttempts
        (cmd_play true (some arg) true (Except.ok f) false false streamErr s).ops = 1
    ∧ (cmd_play true (some arg) true (Except.ok f) false false streamErr s).reply
        = vcJoinFailReply streamErr
    ∧ ∀ e : String,
        (cmd_play true (some arg) true (Except.ok f) false false streamErr s).reply
          ≠ resolutionFailReply e := by
  have hmain :
      (cmd_play true (some arg) true (Except.ok f) false false streamErr s).state
        = ⟨[f], some f⟩
      ∧ streamAttempts
          (cmd_play true (some arg) true (Except.ok f) false false streamErr s).ops = 1
      ∧ (cmd_play true (some arg) true (Except.ok f) false false streamErr s).reply
          = vcJoinFailReply streamErr := by
    simp [cmd_play, play_next, ensure_join_and_play, hempty, streamAttempts,
      isChangeStreamOp]
  refine ⟨hmain.1, hmain.2.1, hmain.2.2, ?_⟩
  intro e
  rw [hmain.2.2]
  exact vcJoinFailReply_ne_resolutionFailReply streamErr e

/-- C7 witness: with an empty queue, a resolved file whose VC join fails
stays current and queued, and the reported outcome differs from the
no-result resolution outcome. -/
theorem c7_witness :
    (cmd_play true (some "q") true (Except.ok "f.mp3") false false "timeout"
        initState).state = ⟨["f.mp3"], some "f.mp3"⟩
    ∧ (cmd_play true (some "q") true (Except.ok "f.mp3") false false "timeout"
        initState).reply ≠ resolutionFailReply "No mp3 produced" := by
  have h := c7_join_failure_kept_current "q" "f.mp3" "timeout" initState rfl
  exact ⟨h.1, h.2.2.2 "No mp3 produced"⟩

/-- C6: when resolution fails — either resolver failure kind: the download or
conversion subprocess raising, or no result ("No mp3 produced") — the
handler stops: queue state unchanged, nothing released, zero call-session
ops, and the reply carries the truncated (180-character) diagnostic of that
failure; distinct truncated diagnostics yield distinct outcomes, so the
outcome identifies the failure. -/
theorem c6_resolution_failure (subprocessErr : Option String)
    (dirFiles : List (String × Nat)) (q arg e : String)
    (changeOk joinOk : Bool) (streamErr : String) (s : GroupState)
    (h : (ytdlp_to_mp3 subprocessErr dirFiles q).2 = Except.error e) :
    cmd_play true (some arg) true (ytdlp_to_mp3 subprocessErr dirFiles q).2
        changeOk joinOk streamErr s
      = ⟨s, [], [], some (normalize_music_query arg), resolutionFailReply e⟩
    ∧ ∀ e2 : String, pyTake e 180 ≠ pyTake e2 180 →
        resolutionFailReply e ≠ resolutionFailReply e2 := by
  constructor
  · rw [h]
    rfl
  · intro e2 hne heq
    apply hne
    have hd := congrArg String.data heq
    simp only [resolutionFailReply, String.data_append] at hd
    exact String.ext (List.append_cancel_left (List.append_cancel_right hd))

/-- C6 witness: a download failure ("boom") leaves the untouched state and
issues no call op, and its outcome differs from the no-result
("No mp3 produced") outcome — the two failure kinds stay distinguishable. -/
theorem c6_witness :
    cmd_play true (some "q") true (ytdlp_to_mp3 (some "boom") [] "q").2
        true true "" initState
      = ⟨initState, [], [], some (normalize_music_query "q"),
         resolutionFailReply "boom"⟩
    ∧ resolutionFailReply "boom" ≠ resolutionFailReply "No mp3 produced" := by
  have h := c6_resolution_failure (some "boom") [] "q" "q" "boom" true true ""
    initState rfl
  exact ⟨h.1, h.2 "No mp3 produced" (by decide)⟩

/-- The result component of the resolver with a successful download, exposed
as a match on the sorted mp3 list. -/
theorem ytdlp_result_eq (dirFiles : List (String × Nat)) (q : String) :
    (ytdlp_to_mp3 none dirFiles q).2
      = match (dirFiles.filter (fun f => pyEndsWith f.1 ".mp3")).mergeSort mtimeDesc with
        | [] => Except.error "No mp3 produced"
        | f :: _ => Except.ok ("/tmp/tg_music/" ++ f.1) := rfl

/-- `mtimeDesc` is transitive. -/
theorem mtimeDesc_trans (a b c : String × Nat) :
    mtimeDesc a b = true → mtimeDesc b c = true → mtimeDesc a c = true := by
  simp only [mtimeDesc, decide_eq_true_eq]
  omega

/-- `mtimeDesc` is total. -/
theorem mtimeDesc_total (a b : String × Nat) :
    (mtimeDesc a b || mtimeDesc b a) = true := by
  simp only [mtimeDesc, Bool.or_eq_true, decide_eq_true_eq]
  omega

/-- Each in-group event preserves "current is the head of pending". -/
theorem step_preserves_head (e : Ev) (s : GroupState)
    (h : s.now = s.pending.head?) :
    (step s e).now = (step s e).pending.head? := by
  cases e with
  | play arg present resolve changeOk joinOk streamErr =>
    simp only [step]
    rw [cmd_play_state]
    cases present with
    | false => exact h
    | true =>
      cases resolve with
      | error e2 => exact h
      | ok f =>
        by_cases hp : s.pending = []
        · simp [hp]
        · simp only [if_neg hp]
          obtain ⟨a, t, hs⟩ := List.exists_cons_of_ne_nil hp
          simp [h, hs]
  | skip changeOk joinOk streamErr =>
    simp only [step]
    rw [cmd_skip_state]
    cases hs : s.pending with
    | nil =>
      simp only
      exact h
    | cons a rest =>
      cases rest with
      | nil => simp
      | cons b t => simp
  | stop leaveOk =>
    simp [cmd_stop, step]

/-- C1 counterexample: after a single successful Enqueue onto the empty
queue the same artifact reference is current AND a member of pending — the
code records the playing track in `mem_now` while leaving it as the head of
`mem_queue` — refuting "an artifact reference appears in at most one of
pending and current". -/
theorem c1_counterexample :
    (run [Ev.play "q" true (Except.ok "a.mp3") true true ""]).now = some "a.mp3"
    ∧ "a.mp3" ∈ (run [Ev.play "q" true (Except.ok "a.mp3") true true ""]).pending := by
  constructor
  · rfl
  · exact List.mem_cons_self _ _

/-- C1 amended: for every group and every sequence of in-group operations,
at most one artifact is current at a time (current is a single optional
reference), and the current artifact is always exactly the head of pending
(`none` when pending is empty).  Hence current ∪ pending is just pending:
an artifact occurs in both pending and current precisely when it is the
playing head, and the operations introduce no other sharing — the original
"at most one of pending and current" reading fails (see the
counterexample). -/
theorem c1_current_is_head (es : List Ev) :
    (run es).now = (run es).pending.head? := by
  suffices h : ∀ s : GroupState, s.now = s.pending.head? →
      ∀ l : List Ev, (l.foldl step s).now = (l.foldl step s).pending.head? by
    exact h initState rfl es
  intro s hs l
  induction l generalizing s with
  | nil => exact hs
  | cons e rest ih =>
    rw [List.foldl_cons]
    exact ih (step s e) (step_preserves_head e s hs)

/-- C3 counterexample: the claim says enqueueing onto a non-empty queue
reports "queued at position N" with N the new queue length; but the handler
replies with exactly the same text after an enqueue making the length 2 and
after one making the length 3 (only the file name is shown), so the outcome
cannot report the position. -/
theorem c3_counterexample :
    (cmd_play true (some "q") true (Except.ok "c.mp3") true true ""
        ⟨["a.mp3"], some "a.mp3"⟩).reply
      = (cmd_play true (some "q") true (Except.ok "c.mp3") true true ""
        ⟨["a.mp3", "b.mp3"], some "a.mp3"⟩).reply
    ∧ (cmd_play true (some "q") true (Except.ok "c.mp3") true true ""
        ⟨["a.mp3"], some "a.mp3"⟩).state.pending.length = 2
    ∧ (cmd_play true (some "q") true (Except.ok "c.mp3") true true ""
        ⟨["a.mp3", "b.mp3"], some "a.mp3"⟩).state.pending.length = 3 := by
  exact ⟨rfl, rfl, rfl⟩

/-- C3 amended: for every PlayRequest whose resolution succeeds: if the
group's queue was empty before the enqueue, the enqueued artifact
immediately becomes current and exactly one join/change-stream attempt is
made, every issued op targeting it and none being a Leave; if the queue was
non-empty, the outcome is the queued reply naming the artifact — the queue
position is NOT included (see the counterexample) — and zero call-session
operations are issued. -/
theorem c3_enqueue (arg f streamErr : String) (changeOk joinOk : Bool)
    (s : GroupState) :
    (s.pending = [] →
      (cmd_play true (some arg) true (Except.ok f) changeOk joinOk streamErr
          s).state = ⟨[f], some f⟩
      ∧ streamAttempts (cmd_play true (some arg) true (Except.ok f) changeOk
          joinOk streamErr s).ops = 1
      ∧ (∀ op ∈ (cmd_play true (some arg) true (Except.ok f) changeOk joinOk
          streamErr s).ops, opTarget op = some f)
      ∧ leaveCount (cmd_play true (some arg) true (Except.ok f) changeOk
          joinOk streamErr s).ops = 0)
    ∧ (s.pending ≠ [] →
      (cmd_play true (some arg) true (Except.ok f) changeOk joinOk streamErr
          s).state = ⟨s.pending ++ [f], s.now⟩
      ∧ (cmd_play true (some arg) true (Except.ok f) changeOk joinOk streamErr
          s).ops = []
      ∧ (cmd_play true (some arg) true (Except.ok f) changeOk joinOk streamErr
          s).reply = queuedReply f) := by
  constructor
  · intro h
    cases changeOk <;> cases joinOk <;>
      simp [cmd_play, play_next, ensure_join_and_play, h, streamAttempts,
        isChangeStreamOp, opTarget, leaveCount, isLeaveOp]
  · intro h
    obtain ⟨a, t, hs⟩ := List.exists_cons_of_ne_nil h
    have hlen : ¬ ((a :: t) ++ [f]).length = 1 := by simp
    simp [cmd_play, hs, hlen]

/-- C3 witness: onto the empty queue the file becomes current; onto a
non-empty queue no call-session op is issued. -/
theorem c3_witness :
    (cmd_play true (some "q") true (Except.ok "f.mp3") true true ""
        initState).state = ⟨["f.mp3"], some "f.mp3"⟩
    ∧ (cmd_play true (some "q") true (Except.ok "g.mp3") true true ""
        ⟨["f.mp3"], some "f.mp3"⟩).ops = [] := by
  refine ⟨((c3_enqueue "q" "f.mp3" "" true true initState).1 rfl).1, ?_⟩
  exact ((c3_enqueue "q" "g.mp3" "" true true ⟨["f.mp3"], some "f.mp3"⟩).2
    (by decide)).2.1

/-- C10: after a successful download (the subprocess did not raise), the
resolver returns the path of a `.mp3` file of the shared directory
`/tmp/tg_music` whose mtime is maximal among ALL `.mp3` files there — not
necessarily the file this request produced, when other mp3 files exist —
and it fails with "No mp3 produced" exactly when the directory contains no
`.mp3` file at all. -/
theorem c10_newest_shared_mp3 (dirFiles : List (String × Nat)) (q : String) :
    (dirFiles.filter (fun f => pyEndsWith f.1 ".mp3") = [] →
      (ytdlp_to_mp3 none dirFiles q).2 = Except.error "No mp3 produced")
    ∧ (dirFiles.filter (fun f => pyEndsWith f.1 ".mp3") ≠ [] →
      ∃ m ∈ dirFiles.filter (fun f => pyEndsWith f.1 ".mp3"),
        (ytdlp_to_mp3 none dirFiles q).2 = Except.ok ("/tmp/tg_music/" ++ m.1)
        ∧ ∀ g ∈ dirFiles.filter (fun f => pyEndsWith f.1 ".mp3"), g.2 ≤ m.2) := by
  constructor
  · intro h
    rw [ytdlp_result_eq, h, List.mergeSort_nil]
  · intro h
    have hperm := List.mergeSort_perm
      (dirFiles.filter (fun f => pyEndsWith f.1 ".mp3")) mtimeDesc
    cases hsort : (dirFiles.filter (fun f => pyEndsWith f.1 ".mp3")).mergeSort
        mtimeDesc with
    | nil =>
      rw [hsort] at hperm
      exact absurd hperm.symm.eq_nil h
    | cons m rest =>
      have hm : m ∈ dirFiles.filter (fun f => pyEndsWith f.1 ".mp3") := by
        apply hperm.subset
        rw [hsort]
        exact List.mem_cons_self _ _
      refine ⟨m, hm, ?_, ?_⟩
      · rw [ytdlp_result_eq, hsort]
      · intro g hg
        have hg' : g ∈ (dirFiles.filter
            (fun f => pyEndsWith f.1 ".mp3")).mergeSort mtimeDesc :=
          hperm.symm.subset hg
        rw [hsort] at hg'
        rcases List.mem_cons.mp hg' with heq | hgrest
        · rw [heq]
        · have hpair := List.sorted_mergeSort mtimeDesc_trans mtimeDesc_total
            (dirFiles.filter (fun f => pyEndsWith f.1 ".mp3"))
          rw [hsort] at hpair
          have hle := (List.pairwise_cons.mp hpair).1 g hgrest
          simpa [mtimeDesc] using hle

/-- C10 witness: an empty directory fails with "No mp3 produced"; with two
mp3 files and a text file present, the returned path is the mp3 with the
greatest mtime — here a pre-existing file, not the fresher one. -/
theorem c10_witness :
    ((ytdlp_to_mp3 none [] "q").2 = Except.error "No mp3 produced")
    ∧ ∃ m ∈ [("other.mp3", 9), ("fresh.mp3", 3), ("notes.txt", 99)].filter
          (fun f => pyEndsWith f.1 ".mp3"),
        (ytdlp_to_mp3 none
            [("other.mp3", 9), ("fresh.mp3", 3), ("notes.txt", 99)] "q").2
          = Except.ok ("/tmp/tg_music/" ++ m.1)
        ∧ ∀ g ∈ [("other.mp3", 9), ("fresh.mp3", 3), ("notes.txt", 99)].filter
            (fun f => pyEndsWith f.1 ".mp3"), g.2 ≤ m.2 := by
  refine ⟨(c10_newest_shared_mp3 [] "q").1 rfl, ?_⟩
  exact (c10_newest_shared_mp3
    [("other.mp3", 9), ("fresh.mp3", 3), ("notes.txt", 99)] "q").2 (by decide)
